import Mathlib

/-!
Verification of the prompt-templating and multimodal-request dispatch layer of
SilverMotionAI (src/sma_app.py).  Pure prompt construction, language branching,
the request payloads sent to the remote provider, and the UI-level gating are
embedded directly from the source.  The remote provider itself is external: it
is passed to every operation as a function from outbound calls to response
envelopes (for text/vision calls) or to audio bytes (for speech calls).  Each
operation returns, alongside its result, the ordered trace of remote calls it
issued, so that properties about which calls are made, and in which order, can
be stated.
-/

namespace SilverMotion

set_option maxRecDepth 65536

/-- Raw bytes of an uploaded media file or of synthesized audio, modelled as a
list of byte values. -/
abbrev Bytes := List Nat

/-- One content part of an outbound multimodal request, as assembled at
src/sma_app.py lines 55-58 and 226-229: a text part carrying the prompt or an
image part carrying the raw image bytes. -/
inductive ContentPart where
  | text (value : String)
  | image (value : Bytes)
deriving DecidableEq

/-- The payload of one client.responses.create call: the text tasks pass a plain
prompt string, the vision tasks pass a role-tagged list of content parts. -/
inductive RequestInput where
  | plain (prompt : String)
  | multimodal (role : String) (content : List ContentPart)
deriving DecidableEq

/-- One outbound remote call: a client.responses.create request (model name and
input payload) or a client.audio.speech.create request (model name, input text,
voice, audio format), as at src/sma_app.py lines 116-121. -/
inductive RemoteCall where
  | responses (model : String) (input : RequestInput)
  | speech (model : String) (input : String) (voice : String) (format : String)
deriving DecidableEq

/-- Modelled from the spec: one content part of a response output item; the
repository files that decode this shape are not under src/, so the shape
follows the spec wording: nested output items each contain content parts that
may carry a text value. -/
structure ContentPartOut where
  text : Option String
deriving DecidableEq

/-- Modelled from the spec: one output item of a response envelope, holding a
sequence of content parts. -/
structure OutputItem where
  content : List ContentPartOut
deriving DecidableEq

/-- Modelled from the spec: a provider response envelope, which "may expose
output as a single text field or as a nested sequence of output items each
containing content parts"; either part may be absent or empty. -/
structure Envelope where
  output_text : Option String
  output : List OutputItem
deriving DecidableEq

/-- Modelled from the spec: the fixed placeholder string into which an
extraction failure is recovered.  The spec fixes only that it is one literal
constant, not its wording, so one representative literal is used. -/
def placeholderText : String := "Unable to read the model response."

/-- Modelled from the spec: the failure taxonomy of the dispatch layer
(communication failure, a reply with no usable text, a reply of unrecognized
shape). -/
inductive SMAError where
  | CommunicationError
  | EmptyResponse
  | ExtractionError
deriving DecidableEq

/-- Modelled from the spec: shape-directed extraction of the reply text.  It
tries the flat output_text field first, then the nested
output[0].content[0].text path, and fails with ExtractionError when the
envelope matches neither known shape. -/
def extract_raw (e : Envelope) : Except SMAError String :=
  match e.output_text with
  | some t => Except.ok t
  | none =>
    match e.output with
    | [] => Except.error SMAError.ExtractionError
    | item :: _ =>
      match item.content with
      | [] => Except.error SMAError.ExtractionError
      | part :: _ =>
        match part.text with
        | some t => Except.ok t
        | none => Except.error SMAError.ExtractionError

/-- Modelled from the spec: recovered extraction.  An envelope matching neither
known shape is recovered locally into the fixed placeholder string, so the
caller always receives a plain string and no exception escapes. -/
def extract_recovered (e : Envelope) : String :=
  match extract_raw e with
  | Except.ok t => t
  | Except.error _ => placeholderText

/-- Modelled from the spec: the result of a text-only dispatch.  The recovered
extraction is returned when it is usable text; when the call succeeded but
yielded no usable text (the extracted text is empty), the dispatch fails with
EmptyResponse, surfaced as an error value rather than an exception. -/
def textResult (e : Envelope) : Except SMAError String :=
  if extract_recovered e = "" then Except.error SMAError.EmptyResponse
  else Except.ok (extract_recovered e)

/-- The nested output[0].content[0].text value of an envelope, when present. -/
def firstNested (e : Envelope) : Option String :=
  match e.output with
  | [] => none
  | item :: _ =>
    match item.content with
    | [] => none
    | part :: _ => part.text

/-- The envelope matches neither known shape: it has no flat output_text field
and no nested output[0].content[0].text value. -/
def noKnownShape (e : Envelope) : Prop :=
  e.output_text = none ∧ firstNested e = none

/-- The call succeeded but the envelope carries no usable text: the text field
that extraction finds (flat, or else nested) holds the empty string. -/
def noUsableText (e : Envelope) : Prop :=
  e.output_text = some "" ∨ (e.output_text = none ∧ firstNested e = some "")

/-- Python str.startswith as used at src/sma_app.py lines 103 and 131: true
when the second string is a character prefix of the first. -/
def pyStartsWith (s p : String) : Bool :=
  List.isPrefixOf p.data s.data

/-- Substring containment test on strings: true when the second string occurs
as a contiguous run of characters inside the first. -/
def listInfix (needle : List Char) : List Char → Bool
  | [] => needle.isEmpty
  | c :: rest => List.isPrefixOf needle (c :: rest) || listInfix needle rest

/-- String form of listInfix. -/
def strContains (hay needle : String) : Bool :=
  listInfix needle.data hay.data

/-- src/sma_app.py lines 16-17: the uploaded file is read into raw bytes,
unchanged. -/
def read_image_bytes (uploaded_file : Bytes) : Bytes :=
  uploaded_file

/-- The part of the vision-diagnosis prompt before the symptoms text
(src/sma_app.py lines 26-31). -/
def visionPre : String :=
  "\nYou are a senior orthopedic specialist + senior TCM doctor.\n\nAnalyze the joint photo + symptoms and produce a dual medical report.\n\nSymptoms: "

/-- The part of the vision-diagnosis prompt after the symptoms text, with the
language label embedded verbatim (src/sma_app.py lines 31-48). -/
def visionPost (lang : String) : String :=
  "\n\n===== Western Medicine =====\n1. Probable diagnosis\n2. Visible abnormalities\n3. Severity level\n4. Home-care recommendations\n5. Red flags (when to see a doctor)\n\n===== Traditional Chinese Medicine =====\n1. TCM pattern diagnosis (证型)\n2. Meridians involved (经络)\n3. Imbalance mechanism (气血 / 寒湿 / 肝肾亏虚)\n4. Acupoints to massage (穴位)\n5. Elder-safe herbal suggestions\n\nLanguage: " ++ lang ++ "\n"

/-- The vision-diagnosis prompt (src/sma_app.py lines 26-48). -/
def visionPrompt (symptoms lang : String) : String :=
  visionPre ++ symptoms ++ visionPost lang

/-- The part of the text-diagnosis prompt before the symptoms text
(src/sma_app.py lines 70-73). -/
def textDiagPre : String :=
  "\nYou are an orthopedic doctor + TCM expert.\n\nPatient symptoms: "

/-- The part of the text-diagnosis prompt after the symptoms text
(src/sma_app.py lines 73-90). -/
def textDiagPost (lang : String) : String :=
  "\n\nProvide:\n\n===== Western Medicine =====\n1. Possible diagnosis\n2. Why symptoms happen\n3. Recommended exercises\n4. Home advice\n\n===== TCM =====\n1. Pattern diagnosis\n2. Acupoints\n3. Food therapy\n4. Daily lifestyle\n\nLanguage: " ++ lang ++ "\n"

/-- The text-diagnosis prompt (src/sma_app.py lines 70-90). -/
def textDiagPrompt (symptoms lang : String) : String :=
  textDiagPre ++ symptoms ++ textDiagPost lang

/-- The Chinese elder-summary prompt before the pasted text
(src/sma_app.py line 104). -/
def elderZhPre : String :=
  "请把以下医疗内容写成 3 句老人容易理解的简单说明：\n"

/-- The English elder-summary prompt before the pasted text
(src/sma_app.py line 106). -/
def elderEnPre : String :=
  "Rewrite the following into 3 simple senior-friendly sentences:\n"

/-- The elder-summary prompt, branching on whether the language label starts
with 中文 (src/sma_app.py lines 103-106). -/
def elderPrompt (text lang : String) : String :=
  if pyStartsWith lang "中文" then elderZhPre ++ text else elderEnPre ++ text

/-- The TCM-remedy template before the language-instruction clause
(src/sma_app.py lines 136-146). -/
def tcmPre : String :=
  "\nProvide a Traditional Chinese Medicine joint-pain guideline.\n\nInclude:\n- TCM patterns\n- Meridians & acupoints\n- Food therapy\n- Daily routines\n- Safety notes\n\n"

/-- The TCM-remedy prompt: the template body followed by the Chinese or English
instruction clause, branching on whether the language label starts with 中文
(src/sma_app.py lines 130-147). -/
def tcmPrompt (lang : String) : String :=
  tcmPre ++ (if pyStartsWith lang "中文" then "用简体中文回答。" else "Respond in English.") ++ "\n"

/-- The part of the pain-score prompt before the symptoms text
(src/sma_app.py lines 160-163). -/
def painPre : String :=
  "\nEstimate pain level (0-10) from symptoms:\n\nSymptoms: "

/-- The part of the pain-score prompt after the symptoms text
(src/sma_app.py lines 163-171). -/
def painPost (lang : String) : String :=
  "\n\nReturn:\n1. Pain score 0-10\n2. Explanation\n3. Suggested actions\n\nLanguage: " ++ lang ++ "\n"

/-- The pain-score prompt (src/sma_app.py lines 160-171). -/
def painPrompt (symptoms lang : String) : String :=
  painPre ++ symptoms ++ painPost lang

/-- The part of the rehab-routine prompt before the symptoms text
(src/sma_app.py lines 183-187). -/
def rehabPre : String :=
  "\nYou are a physical therapist.\n\nGenerate a 3-step rehab routine for the symptoms:\n\nSymptoms: "

/-- The part of the rehab-routine prompt after the symptoms text
(src/sma_app.py lines 187-197). -/
def rehabPost (lang : String) : String :=
  "\n\nReturn:\n- Warm-up\n- Main exercise\n- Cool-down\n- Safety notes\n\nLanguage: " ++ lang ++ "\n"

/-- The rehab-routine prompt (src/sma_app.py lines 183-197). -/
def rehabPrompt (symptoms lang : String) : String :=
  rehabPre ++ symptoms ++ rehabPost lang

/-- The motion-analysis prompt before the language label
(src/sma_app.py lines 208-218). -/
def motionPre : String :=
  "\nAnalyze body posture from this image.\n\nReturn:\n1. Skeleton points (key joints)\n2. Posture issues\n3. Risk assessment\n4. Corrections\n5. Senior-friendly explanation\n\nLanguage: "

/-- The motion-analysis prompt (src/sma_app.py lines 208-219). -/
def motionPrompt (lang : String) : String :=
  motionPre ++ lang ++ "\n"

/-- src/sma_app.py lines 23-63: vision diagnosis.  Reads the image bytes,
builds the prompt, issues one multimodal responses call on the vision model,
and returns the reply text via the recovered extraction (extraction itself is
modelled from the spec).  The second component is the trace of remote calls
issued. -/
def diagnose_with_vision (providerR : RemoteCall → Envelope)
    (image_file : Bytes) (symptoms lang : String) : String × List RemoteCall :=
  let img_bytes := read_image_bytes image_file
  let c := RemoteCall.responses "gpt-5.1-vision"
    (RequestInput.multimodal "user"
      [ContentPart.text (visionPrompt symptoms lang), ContentPart.image img_bytes])
  (extract_recovered (providerR c), [c])

/-- src/sma_app.py lines 69-96: text diagnosis.  Builds the prompt, issues one
plain responses call on the text model, and returns the dispatched text result
(text-result handling is modelled from the spec). -/
def diagnose_from_text (providerR : RemoteCall → Envelope)
    (symptoms lang : String) : Except SMAError String × List RemoteCall :=
  let c := RemoteCall.responses "gpt-5.1" (RequestInput.plain (textDiagPrompt symptoms lang))
  (textResult (providerR c), [c])

/-- src/sma_app.py lines 102-124: elder summary.  Builds the simplification
prompt (language-branched), issues the text call, and only then issues the
speech-synthesis call whose input is exactly the summary string returned by the
first call; returns the summary paired with the synthesized audio bytes.  When
the first call yields no usable summary, the failure is returned and no speech
call is issued. -/
def make_elder_summary (providerR : RemoteCall → Envelope)
    (providerS : RemoteCall → Bytes) (text lang : String) :
    Except SMAError (String × Bytes) × List RemoteCall :=
  let c1 := RemoteCall.responses "gpt-5.1" (RequestInput.plain (elderPrompt text lang))
  match textResult (providerR c1) with
  | Except.error err => (Except.error err, [c1])
  | Except.ok summary =>
    let c2 := RemoteCall.speech "gpt-4o-mini-tts" summary "alloy" "mp3"
    (Except.ok (summary, providerS c2), [c1, c2])

/-- src/sma_app.py lines 130-153: TCM remedy.  Builds the language-branched
prompt and issues one plain responses call on the text model. -/
def generate_tcm_recommendation (providerR : RemoteCall → Envelope)
    (lang : String) : Except SMAError String × List RemoteCall :=
  let c := RemoteCall.responses "gpt-5.1" (RequestInput.plain (tcmPrompt lang))
  (textResult (providerR c), [c])

/-- src/sma_app.py lines 159-176: pain score.  Builds the prompt and issues one
plain responses call on the text model. -/
def estimate_pain_score (providerR : RemoteCall → Envelope)
    (symptoms lang : String) : Except SMAError String × List RemoteCall :=
  let c := RemoteCall.responses "gpt-5.1" (RequestInput.plain (painPrompt symptoms lang))
  (textResult (providerR c), [c])

/-- src/sma_app.py lines 182-199: rehab routine.  Builds the prompt and issues
one plain responses call on the text model. -/
def generate_rehab_routine (providerR : RemoteCall → Envelope)
    (symptoms lang : String) : Except SMAError String × List RemoteCall :=
  let c := RemoteCall.responses "gpt-5.1" (RequestInput.plain (rehabPrompt symptoms lang))
  (textResult (providerR c), [c])

/-- src/sma_app.py lines 205-233: motion analysis.  Reads the image bytes,
builds the prompt, issues one multimodal responses call on the vision model,
and returns the reply text via the recovered extraction. -/
def analyze_motion_with_vision (providerR : RemoteCall → Envelope)
    (image_file : Bytes) (lang : String) : String × List RemoteCall :=
  let img_bytes := read_image_bytes image_file
  let c := RemoteCall.responses "gpt-5.1-vision"
    (RequestInput.multimodal "user"
      [ContentPart.text (motionPrompt lang), ContentPart.image img_bytes])
  (extract_recovered (providerR c), [c])

/-- The fixed set of output-language labels offered by the sidebar selectbox
(src/sma_app.py lines 266-269). -/
def supportedLangs : List String :=
  ["English", "中文（简体）"]

/-- The free-form fields a task template may consume: a symptoms text, a pasted
text to simplify, and the selected output-language label. -/
structure Fields where
  symptoms : String
  text : String
  language : String
deriving DecidableEq

/-- The task identifiers of the dispatch layer, one per user-facing feature. -/
inductive Task where
  | visionDiagnosis
  | textDiagnosis
  | elderSummary
  | tcmRemedy
  | painScore
  | rehabRoutine
  | motionAnalysis
deriving DecidableEq

/-- The prompt-construction dispatcher: selects the template of a task and
applies it to the given fields.  Each branch is the prompt builder of the
corresponding source function. -/
def buildPrompt : Task → Fields → String
  | Task.visionDiagnosis, f => visionPrompt f.symptoms f.language
  | Task.textDiagnosis, f => textDiagPrompt f.symptoms f.language
  | Task.elderSummary, f => elderPrompt f.text f.language
  | Task.tcmRemedy, f => tcmPrompt f.language
  | Task.painScore, f => painPrompt f.symptoms f.language
  | Task.rehabRoutine, f => rehabPrompt f.symptoms f.language
  | Task.motionAnalysis, f => motionPrompt f.language

/-- One user action on the UI (one button press on one tab), with the data the
tab widgets supply; an absent image upload is None (src/sma_app.py
lines 296-374). -/
inductive UserAction where
  | imageDiagnosis (img : Option Bytes) (symptoms : String)
  | textDiagnosis (symptoms : String)
  | elderSummary (text : String)
  | tcmRemedies
  | painScore (symptoms : String)
  | rehabRoutine (symptoms : String)
  | motionTracking (img : Option Bytes)
deriving DecidableEq

/-- What the UI layer renders after an action: text, text plus audio, an error
message shown without calling the dispatcher, or a surfaced dispatch failure. -/
inductive UIOutcome where
  | text (s : String)
  | textAndAudio (s : String) (audio : Bytes)
  | errorMsg (s : String)
  | failure (e : SMAError)
deriving DecidableEq

/-- Lifts a text-dispatch result into the rendered outcome, keeping the trace:
a success is rendered as text, a failure is surfaced as a message. -/
def liftText (r : Except SMAError String × List RemoteCall) : UIOutcome × List RemoteCall :=
  (match r.1 with
   | Except.ok t => UIOutcome.text t
   | Except.error e => UIOutcome.failure e, r.2)

/-- The UI wiring of src/sma_app.py lines 296-374: one button press runs one
dispatch.  The image tabs refuse to dispatch when no file is selected and show
the literal on-screen error instead. -/
def runAction (providerR : RemoteCall → Envelope) (providerS : RemoteCall → Bytes)
    (lang : String) : UserAction → UIOutcome × List RemoteCall
  | UserAction.imageDiagnosis none _ =>
    (UIOutcome.errorMsg "Please upload an image.", [])
  | UserAction.imageDiagnosis (some f) symptoms =>
    let r := diagnose_with_vision providerR f symptoms lang
    (UIOutcome.text r.1, r.2)
  | UserAction.textDiagnosis symptoms =>
    liftText (diagnose_from_text providerR symptoms lang)
  | UserAction.elderSummary text =>
    match make_elder_summary providerR providerS text lang with
    | (Except.ok (s, audio), tr) => (UIOutcome.textAndAudio s audio, tr)
    | (Except.error e, tr) => (UIOutcome.failure e, tr)
  | UserAction.tcmRemedies =>
    liftText (generate_tcm_recommendation providerR lang)
  | UserAction.painScore symptoms =>
    liftText (estimate_pain_score providerR symptoms lang)
  | UserAction.rehabRoutine symptoms =>
    liftText (generate_rehab_routine providerR symptoms lang)
  | UserAction.motionTracking none =>
    (UIOutcome.errorMsg "Upload an image for motion tracking.", [])
  | UserAction.motionTracking (some f) =>
    let r := analyze_motion_with_vision providerR f lang
    (UIOutcome.text r.1, r.2)

/-- A provider whose envelopes match neither known shape. -/
def badProvider : RemoteCall → Envelope := fun _ => Envelope.mk none []

/-- A provider whose envelopes carry a flat usable text field. -/
def okProvider : RemoteCall → Envelope := fun _ => Envelope.mk (some "Summary.") []

/-- A provider whose envelopes carry a flat but empty text field. -/
def emptyProvider : RemoteCall → Envelope := fun _ => Envelope.mk (some "") []

/-- A speech provider returning a fixed audio byte sequence. -/
def audioProvider : RemoteCall → Bytes := fun _ => [1, 2, 3]

/-- Shape-directed extraction fails on an envelope matching neither known
shape. -/
theorem extract_raw_of_noKnownShape (e : Envelope) (h : noKnownShape e) :
    extract_raw e = Except.error SMAError.ExtractionError := by
  obtain ⟨h1, h2⟩ := h
  rcases e with ⟨ot, out⟩
  cases ot with
  | some t => simp at h1
  | none =>
    cases out with
    | nil => rfl
    | cons item rest =>
      rcases item with ⟨content⟩
      cases content with
      | nil => rfl
      | cons part parts =>
        rcases part with ⟨pt⟩
        cases pt with
        | some t => simp [firstNested] at h2
        | none => rfl

/-- Shape-directed extraction returns the empty string on an envelope whose
text field is present but empty. -/
theorem extract_raw_of_noUsableText (e : Envelope) (h : noUsableText e) :
    extract_raw e = Except.ok "" := by
  rcases e with ⟨ot, out⟩
  cases h with
  | inl h1 =>
    cases ot with
    | some t => simp at h1; subst h1; rfl
    | none => simp at h1
  | inr h2 =>
    obtain ⟨h1, h2⟩ := h2
    cases ot with
    | some t => simp at h1
    | none =>
      cases out with
      | nil => simp [firstNested] at h2
      | cons item rest =>
        rcases item with ⟨content⟩
        cases content with
        | nil => simp [firstNested] at h2
        | cons part parts =>
          rcases part with ⟨pt⟩
          cases pt with
          | some t => simp [firstNested] at h2; subst h2; rfl
          | none => simp [firstNested] at h2

/-- Recovered extraction yields the fixed placeholder on an envelope matching
neither known shape. -/
theorem extract_recovered_of_noKnownShape (e : Envelope) (h : noKnownShape e) :
    extract_recovered e = placeholderText := by
  unfold extract_recovered
  rw [extract_raw_of_noKnownShape e h]

/-- A text dispatch of an envelope matching neither known shape succeeds with
the fixed placeholder (the placeholder is nonempty, so it is usable text). -/
theorem textResult_of_noKnownShape (e : Envelope) (h : noKnownShape e) :
    textResult e = Except.ok placeholderText := by
  unfold textResult
  rw [extract_recovered_of_noKnownShape e h,
    if_neg (by decide : ¬ (placeholderText = ""))]

/-- A text dispatch of an envelope with no usable text fails with
EmptyResponse. -/
theorem textResult_of_noUsableText (e : Envelope) (h : noUsableText e) :
    textResult e = Except.error SMAError.EmptyResponse := by
  unfold textResult extract_recovered
  rw [extract_raw_of_noUsableText e h]
  rfl

/-- The elder-summary workflow issues at most two remote calls. -/
theorem make_elder_summary_trace_length
    (providerR : RemoteCall → Envelope) (providerS : RemoteCall → Bytes)
    (text lang : String) :
    (make_elder_summary providerR providerS text lang).2.length ≤ 2 := by
  simp only [make_elder_summary]
  split <;> simp

/-- The trace of the elder-summary user action is the trace of the
elder-summary workflow. -/
theorem runAction_elder_trace
    (providerR : RemoteCall → Envelope) (providerS : RemoteCall → Bytes)
    (lang t : String) :
    (runAction providerR providerS lang (UserAction.elderSummary t)).2 =
      (make_elder_summary providerR providerS t lang).2 := by
  simp only [runAction]
  rcases hms : make_elder_summary providerR providerS t lang with ⟨r, tr⟩
  cases r with
  | ok p => rcases p with ⟨s, audio⟩; rfl
  | error e => rfl

/-- Claim C1: for every provider response whose envelope matches neither known
shape (no flat output_text field and no nested output[0].content[0].text
value), the dispatch operations return the fixed placeholder string to the
caller — the vision dispatches as their result, the text dispatches as their
successful result value, rendered as ordinary text at the UI — and no
exception is raised (every operation is total and returns a value). -/
theorem c1_unrecognized_envelope_yields_placeholder
    (providerR : RemoteCall → Envelope) (providerS : RemoteCall → Bytes)
    (h : ∀ c, noKnownShape (providerR c))
    (f : Bytes) (symptoms lang : String) :
    (diagnose_with_vision providerR f symptoms lang).1 = placeholderText ∧
    (analyze_motion_with_vision providerR f lang).1 = placeholderText ∧
    (diagnose_from_text providerR symptoms lang).1 = Except.ok placeholderText ∧
    (estimate_pain_score providerR symptoms lang).1 = Except.ok placeholderText ∧
    (generate_rehab_routine providerR symptoms lang).1 = Except.ok placeholderText ∧
    (generate_tcm_recommendation providerR lang).1 = Except.ok placeholderText ∧
    (runAction providerR providerS lang (UserAction.textDiagnosis symptoms)).1 =
      UIOutcome.text placeholderText := by
  have hrec : ∀ c, extract_recovered (providerR c) = placeholderText :=
    fun c => extract_recovered_of_noKnownShape _ (h c)
  have htr : ∀ c, textResult (providerR c) = Except.ok placeholderText :=
    fun c => textResult_of_noKnownShape _ (h c)
  refine ⟨?_, ?_, ?_, ?_, ?_, ?_, ?_⟩ <;>
    simp [diagnose_with_vision, analyze_motion_with_vision, diagnose_from_text,
      estimate_pain_score, generate_rehab_routine, generate_tcm_recommendation,
      runAction, liftText, hrec, htr]

/-- Witness for claim C1 at a concrete unrecognized-envelope provider. -/
theorem c1_unrecognized_envelope_yields_placeholder_witness :
    (diagnose_with_vision badProvider [9] "knee pain" "English").1 = placeholderText ∧
    (analyze_motion_with_vision badProvider [9] "English").1 = placeholderText ∧
    (diagnose_from_text badProvider "knee pain" "English").1 = Except.ok placeholderText ∧
    (estimate_pain_score badProvider "knee pain" "English").1 = Except.ok placeholderText ∧
    (generate_rehab_routine badProvider "knee pain" "English").1 = Except.ok placeholderText ∧
    (generate_tcm_recommendation badProvider "English").1 = Except.ok placeholderText ∧
    (runAction badProvider audioProvider "English" (UserAction.textDiagnosis "knee pain")).1 =
      UIOutcome.text placeholderText :=
  c1_unrecognized_envelope_yields_placeholder badProvider audioProvider
    (fun _ => ⟨rfl, rfl⟩) [9] "knee pain" "English"

/-- Claim C2 counterexample: invoking the vision dispatch with an EMPTY media
byte payload is not rejected — a remote provider call is issued, and it
carries the empty image part. -/
theorem c2_empty_media_not_rejected_counterexample :
    (diagnose_with_vision okProvider [] "sore knee" "English").2 =
      [RemoteCall.responses "gpt-5.1-vision" (RequestInput.multimodal "user"
        [ContentPart.text (visionPrompt "sore knee" "English"), ContentPart.image []])] ∧
    (diagnose_with_vision okProvider [] "sore knee" "English").2 ≠ [] :=
  ⟨rfl, List.cons_ne_nil _ _⟩

/-- Claim C2 (amended): a vision/media action with an ABSENT media file is
rejected at the UI layer before any remote call is attempted (both image tabs
show their literal error and issue no call); the dispatcher itself performs no
emptiness check on the media bytes, so a present but empty payload is
forwarded to the provider inside the issued request. -/
theorem c2_absent_media_rejected_at_ui
    (providerR : RemoteCall → Envelope) (providerS : RemoteCall → Bytes)
    (symptoms lang : String) :
    runAction providerR providerS lang (UserAction.imageDiagnosis none symptoms) =
      (UIOutcome.errorMsg "Please upload an image.", []) ∧
    runAction providerR providerS lang (UserAction.motionTracking none) =
      (UIOutcome.errorMsg "Upload an image for motion tracking.", []) ∧
    (diagnose_with_vision providerR [] symptoms lang).2 =
      [RemoteCall.responses "gpt-5.1-vision" (RequestInput.multimodal "user"
        [ContentPart.text (visionPrompt symptoms lang), ContentPart.image []])] :=
  ⟨rfl, rfl, rfl⟩

/-- Claim C3: the elder-summary workflow first completes the
text-summarization call; whenever that call returns a summary, the
speech-synthesis call receives exactly that summary string — not the original
input text — and the workflow returns the same summary paired with the
synthesized audio bytes, with the two calls traced in that order. -/
theorem c3_elder_summary_feeds_summary_to_tts
    (providerR : RemoteCall → Envelope) (providerS : RemoteCall → Bytes)
    (text lang s : String)
    (h : textResult (providerR (RemoteCall.responses "gpt-5.1"
        (RequestInput.plain (elderPrompt text lang)))) = Except.ok s) :
    make_elder_summary providerR providerS text lang =
      (Except.ok (s, providerS (RemoteCall.speech "gpt-4o-mini-tts" s "alloy" "mp3")),
       [RemoteCall.responses "gpt-5.1" (RequestInput.plain (elderPrompt text lang)),
        RemoteCall.speech "gpt-4o-mini-tts" s "alloy" "mp3"]) := by
  simp [make_elder_summary, h]

/-- Witness for claim C3 at a concrete provider returning a flat summary. -/
theorem c3_elder_summary_feeds_summary_to_tts_witness :
    make_elder_summary okProvider audioProvider "long clinical text" "English" =
      (Except.ok ("Summary.", [1, 2, 3]),
       [RemoteCall.responses "gpt-5.1"
          (RequestInput.plain (elderPrompt "long clinical text" "English")),
        RemoteCall.speech "gpt-4o-mini-tts" "Summary." "alloy" "mp3"]) :=
  c3_elder_summary_feeds_summary_to_tts okProvider audioProvider
    "long clinical text" "English" "Summary." rfl

/-- Claim C4 counterexample: the language label 中文（繁體） lies outside the
supported set, yet the branching templates do NOT fall back to the English
phrasing: the TCM prompt gets the Chinese instruction clause, because the
branch tests only the 中文 prefix. -/
theorem c4_fallback_counterexample :
    "中文（繁體）" ∉ supportedLangs ∧
    buildPrompt Task.tcmRemedy ⟨"", "", "中文（繁體）"⟩ ≠
      tcmPre ++ "Respond in English." ++ "\n" ∧
    buildPrompt Task.tcmRemedy ⟨"", "", "中文（繁體）"⟩ =
      tcmPre ++ "用简体中文回答。" ++ "\n" ∧
    buildPrompt Task.elderSummary ⟨"", "note", "中文（繁體）"⟩ = elderZhPre ++ "note" :=
  ⟨by decide, by decide, by decide, by decide⟩

/-- Claim C4 (amended): the branching templates fall back to the
English-phrased text exactly for the language values that do not start with
the prefix 中文 (so all values outside the supported set that lack this prefix
get English phrasing, but an unsupported value starting with 中文 gets the
Chinese phrasing); no language value crashes prompt construction, every
builder being total. -/
theorem c4_english_fallback_without_zh_prefix
    (lang : String) (hl : pyStartsWith lang "中文" = false) (t : String) :
    tcmPrompt lang = tcmPre ++ "Respond in English." ++ "\n" ∧
    elderPrompt t lang = elderEnPre ++ t ∧
    buildPrompt Task.tcmRemedy ⟨"", "", lang⟩ = tcmPre ++ "Respond in English." ++ "\n" ∧
    buildPrompt Task.elderSummary ⟨"", t, lang⟩ = elderEnPre ++ t := by
  simp [tcmPrompt, elderPrompt, buildPrompt, hl]

/-- Witness for the amended claim C4 at a concrete unsupported label. -/
theorem c4_english_fallback_without_zh_prefix_witness :
    tcmPrompt "Klingon" = tcmPre ++ "Respond in English." ++ "\n" ∧
    elderPrompt "note" "Klingon" = elderEnPre ++ "note" ∧
    buildPrompt Task.tcmRemedy ⟨"", "", "Klingon"⟩ =
      tcmPre ++ "Respond in English." ++ "\n" ∧
    buildPrompt Task.elderSummary ⟨"", "note", "Klingon"⟩ = elderEnPre ++ "note" :=
  c4_english_fallback_without_zh_prefix "Klingon" (by decide) "note"

/-- Claim C5: for the tcm-remedy task invoked with the Simplified-Chinese
label of the supported set, the built prompt contains the Chinese-language
instruction clause and not the English one, and that prompt is what the
dispatch sends to the provider. -/
theorem c5_tcm_simplified_chinese_clause :
    "中文（简体）" ∈ supportedLangs ∧
    strContains (tcmPrompt "中文（简体）") "用简体中文回答。" = true ∧
    strContains (tcmPrompt "中文（简体）") "Respond in English." = false ∧
    (generate_tcm_recommendation okProvider "中文（简体）").2 =
      [RemoteCall.responses "gpt-5.1" (RequestInput.plain (tcmPrompt "中文（简体）"))] :=
  ⟨by decide, by decide, by decide, rfl⟩

/-- Claim C6: prompt construction is deterministic — for every supported task
identifier, identical (task, fields) inputs produce byte-identical prompt
text; the builder consumes nothing but the given fields. -/
theorem c6_buildPrompt_deterministic (t : Task) (f1 f2 : Fields) (h : f1 = f2) :
    buildPrompt t f1 = buildPrompt t f2 := by
  rw [h]

/-- Witness for claim C6 at a concrete task and field assignment. -/
theorem c6_buildPrompt_deterministic_witness :
    buildPrompt Task.painScore ⟨"dull ache", "", "English"⟩ =
      buildPrompt Task.painScore ⟨"dull ache", "", "English"⟩ :=
  c6_buildPrompt_deterministic Task.painScore
    ⟨"dull ache", "", "English"⟩ ⟨"dull ache", "", "English"⟩ rfl

/-- Claim C7: extraction handles both known envelope shapes — a flat
output_text field holding X yields X, and a nested output[0].content[0].text
field holding Y yields Y. -/
theorem c7_extraction_handles_both_shapes (X Y : String) (out : List OutputItem) :
    extract_raw ⟨some X, out⟩ = Except.ok X ∧
    extract_raw ⟨none, [⟨[⟨some Y⟩]⟩]⟩ = Except.ok Y :=
  ⟨rfl, rfl⟩

/-- Claim C8: for every text-only dispatch, when the provider reply carries no
usable text (its text field is empty), the operation fails with an
EmptyResponse error value — surfaced by the UI layer as a failure message,
not a crash — and never returns an empty or malformed success value. -/
theorem c8_no_usable_text_yields_empty_response
    (providerR : RemoteCall → Envelope) (providerS : RemoteCall → Bytes)
    (h : ∀ c, noUsableText (providerR c)) (symptoms lang : String) :
    (diagnose_from_text providerR symptoms lang).1 = Except.error SMAError.EmptyResponse ∧
    (estimate_pain_score providerR symptoms lang).1 = Except.error SMAError.EmptyResponse ∧
    (generate_tcm_recommendation providerR lang).1 = Except.error SMAError.EmptyResponse ∧
    (generate_rehab_routine providerR symptoms lang).1 = Except.error SMAError.EmptyResponse ∧
    runAction providerR providerS lang (UserAction.textDiagnosis symptoms) =
      (UIOutcome.failure SMAError.EmptyResponse,
       [RemoteCall.responses "gpt-5.1" (RequestInput.plain (textDiagPrompt symptoms lang))]) := by
  have htr : ∀ c, textResult (providerR c) = Except.error SMAError.EmptyResponse :=
    fun c => textResult_of_noUsableText _ (h c)
  refine ⟨?_, ?_, ?_, ?_, ?_⟩ <;>
    simp [diagnose_from_text, estimate_pain_score, generate_tcm_recommendation,
      generate_rehab_routine, runAction, liftText, htr]

/-- Witness for claim C8 at a concrete provider returning an empty text
field. -/
theorem c8_no_usable_text_yields_empty_response_witness :
    (diagnose_from_text emptyProvider "knee pain" "English").1 =
      Except.error SMAError.EmptyResponse ∧
    (estimate_pain_score emptyProvider "knee pain" "English").1 =
      Except.error SMAError.EmptyResponse ∧
    (generate_tcm_recommendation emptyProvider "English").1 =
      Except.error SMAError.EmptyResponse ∧
    (generate_rehab_routine emptyProvider "knee pain" "English").1 =
      Except.error SMAError.EmptyResponse ∧
    runAction emptyProvider audioProvider "English" (UserAction.textDiagnosis "knee pain") =
      (UIOutcome.failure SMAError.EmptyResponse,
       [RemoteCall.responses "gpt-5.1"
          (RequestInput.plain (textDiagPrompt "knee pain" "English"))]) :=
  c8_no_usable_text_yields_empty_response emptyProvider audioProvider
    (fun _ => Or.inl rfl) "knee pain" "English"

/-- Claim C9 counterexample: the elder-summary user action issues TWO remote
provider calls before returning (one text-generation call, then one
speech-synthesis call), so not every user action issues at most one. -/
theorem c9_single_call_counterexample :
    (runAction okProvider audioProvider "English" (UserAction.elderSummary "report")).2.length = 2 ∧
    ¬ (runAction okProvider audioProvider "English" (UserAction.elderSummary "report")).2.length ≤ 1 :=
  ⟨rfl, by decide⟩

/-- Claim C9 (amended): every user action other than the elder-summary action
issues at most one remote call before returning; the elder-summary action
issues at most two (the summary call, then the speech call), and no action
ever issues more than two. -/
theorem c9_bounded_calls_per_action
    (providerR : RemoteCall → Envelope) (providerS : RemoteCall → Bytes)
    (lang : String) (a : UserAction) :
    (runAction providerR providerS lang a).2.length ≤ 2 ∧
    ((∀ t, a ≠ UserAction.elderSummary t) →
      (runAction providerR providerS lang a).2.length ≤ 1) := by
  constructor
  · cases a with
    | elderSummary t =>
      rw [runAction_elder_trace]
      exact make_elder_summary_trace_length providerR providerS t lang
    | imageDiagnosis img symptoms =>
      cases img <;> simp [runAction, diagnose_with_vision]
    | textDiagnosis symptoms => simp [runAction, liftText, diagnose_from_text]
    | tcmRemedies => simp [runAction, liftText, generate_tcm_recommendation]
    | painScore symptoms => simp [runAction, liftText, estimate_pain_score]
    | rehabRoutine symptoms => simp [runAction, liftText, generate_rehab_routine]
    | motionTracking img =>
      cases img <;> simp [runAction, analyze_motion_with_vision]
  · intro hno
    cases a with
    | elderSummary t => exact absurd rfl (hno t)
    | imageDiagnosis img symptoms =>
      cases img <;> simp [runAction, diagnose_with_vision]
    | textDiagnosis symptoms => simp [runAction, liftText, diagnose_from_text]
    | tcmRemedies => simp [runAction, liftText, generate_tcm_recommendation]
    | painScore symptoms => simp [runAction, liftText, estimate_pain_score]
    | rehabRoutine symptoms => simp [runAction, liftText, generate_rehab_routine]
    | motionTracking img =>
      cases img <;> simp [runAction, analyze_motion_with_vision]

/-- Witness for the amended claim C9 at the concrete elder-summary action and
a concrete non-elder action. -/
theorem c9_bounded_calls_per_action_witness :
    (runAction okProvider audioProvider "English" (UserAction.elderSummary "report")).2.length ≤ 2 ∧
    ((∀ t, UserAction.elderSummary "report" ≠ UserAction.elderSummary t) →
      (runAction okProvider audioProvider "English" (UserAction.elderSummary "report")).2.length ≤ 1) :=
  c9_bounded_calls_per_action okProvider audioProvider "English"
    (UserAction.elderSummary "report")

/-- Claim C10 (implicit): every user-supplied text field — the empty string
included — is embedded verbatim, untransformed and unvalidated, as a
contiguous substring of the prompt carried by the request each dispatch
actually issues: the prompt is literally a fixed template part, then the
supplied text, then a remainder not depending on that text. -/
theorem c10_user_text_embedded_verbatim
    (providerR : RemoteCall → Envelope) (providerS : RemoteCall → Bytes)
    (s text lang : String) (f : Bytes) :
    (diagnose_with_vision providerR f s lang).2 =
      [RemoteCall.responses "gpt-5.1-vision" (RequestInput.multimodal "user"
        [ContentPart.text (visionPre ++ s ++ visionPost lang), ContentPart.image f])] ∧
    (diagnose_from_text providerR s lang).2 =
      [RemoteCall.responses "gpt-5.1"
        (RequestInput.plain (textDiagPre ++ s ++ textDiagPost lang))] ∧
    (estimate_pain_score providerR s lang).2 =
      [RemoteCall.responses "gpt-5.1"
        (RequestInput.plain (painPre ++ s ++ painPost lang))] ∧
    (generate_rehab_routine providerR s lang).2 =
      [RemoteCall.responses "gpt-5.1"
        (RequestInput.plain (rehabPre ++ s ++ rehabPost lang))] ∧
    (make_elder_summary providerR providerS text lang).2.head? =
      some (RemoteCall.responses "gpt-5.1" (RequestInput.plain
        (if pyStartsWith lang "中文" then elderZhPre ++ text else elderEnPre ++ text))) := by
  refine ⟨rfl, rfl, rfl, rfl, ?_⟩
  simp only [make_elder_summary]
  split <;> rfl

end SilverMotion
